import Mathlib

set_option maxRecDepth 8000
set_option exponentiation.threshold 400

/-!
Shallow embedding of the donation-receipt generator
(src/app_streamlit_ready.py), together with the behaviour of the
external pieces the program leans on: the num2words English cardinal
conversion, the pandas string-filter semantics, and the zipfile
archive-append semantics.  Strings are modelled as lists of
characters; fallible operations return Option.
-/

abbrev Str := List Char

/-- Characters stripped by Python str.strip (ASCII fragment of the
Python whitespace set). -/
def pyIsSpace (c : Char) : Bool :=
  c == ' ' || c == '\t' || c == '\n' || c == '\r' || c == '\x0b' || c == '\x0c'

/-- Python str.strip: remove leading and trailing whitespace. -/
def stripL (s : Str) : Str :=
  ((s.dropWhile pyIsSpace).reverse.dropWhile pyIsSpace).reverse

/-- Python str.lower, modelled per character (ASCII fragment: the
honorific prefixes and filter terms the program compares are ASCII). -/
def lowerL (s : Str) : Str := s.map Char.toLower

/-- Python substring membership test (`pat in s`). -/
def containsL : Str → Str → Bool
  | [], pat => pat.isEmpty
  | c :: cs, pat => List.isPrefixOf pat (c :: cs) || containsL cs pat

/-- The honorific prefix table of clean_name
(src/app_streamlit_ready.py line 23). -/
def prefixes : List Str :=
  ["Dr.".toList, "Mr.".toList, "Mrs.".toList, "Ms.".toList,
   "Prof.".toList, "Miss".toList, "Sir".toList, "Madam".toList]

/-- The for-loop of clean_name (lines 25-28): try each prefix in
order; on the first case-insensitive match drop it, re-strip and stop
(the loop breaks). -/
def stripPrefixLoop (name : Str) : List Str → Str
  | [] => name
  | p :: ps =>
    if (lowerL p).isPrefixOf (lowerL name) then stripL (name.drop p.length)
    else stripPrefixLoop name ps

/-- clean_name (src/app_streamlit_ready.py lines 22-29): strip the
raw name, remove the first matching honorific prefix, strip again. -/
def clean_name (name : Str) : Str :=
  stripPrefixLoop (stripL name) prefixes

/-!
The num2words English cardinal conversion, called on line 43 of
src/app_streamlit_ready.py.  Modelled from the num2words library
(num2words/base.py, lang_EU.py, lang_EN.py): the card table maps
numeric magnitudes to words, splitnum decomposes a number against the
card table, clean folds the decomposition with the English merge
rules, and to_cardinal prefixes "minus " for negatives and raises
OverflowError once the magnitude reaches MAXVAL.
-/

/-- lang_EU low high-numword stems. -/
def lowStems : List Str :=
  ["non".toList, "oct".toList, "sept".toList, "sext".toList, "quint".toList,
   "quadr".toList, "tr".toList, "b".toList, "m".toList]

/-- lang_EU unit stems for composite high numwords. -/
def unitStems : List Str :=
  ["".toList, "un".toList, "duo".toList, "tre".toList, "quattuor".toList,
   "quin".toList, "sex".toList, "septen".toList, "octo".toList, "novem".toList]

/-- lang_EU tens stems for composite high numwords. -/
def tensStems : List Str :=
  ["dec".toList, "vigint".toList, "trigint".toList, "quadragint".toList,
   "quinquagint".toList, "sexagint".toList, "septuagint".toList,
   "octogint".toList, "nonagint".toList]

/-- lang_EU high_numwords: "cent" followed by the reversed unit-tens
products followed by the low stems (100 stems in all). -/
def high_numwords : List Str :=
  ["cent".toList] ++
    (List.flatten (tensStems.map (fun t => unitStems.map (fun u => u ++ t)))).reverse ++
    lowStems

/-- lang_EN set_high_numwords: stem number i (0-based) becomes the card
for 10 ^ (303 - 3 i), suffixed with "illion" (million at 10^6 up to
centillion at 10^303). -/
def high_cards : List (Nat × Str) :=
  (high_numwords.zip ((List.range 100).map (fun i => 303 - 3 * i))).map
    (fun p => (10 ^ p.2, p.1 ++ "illion".toList))

/-- lang_EN mid_numwords. -/
def mid_cards : List (Nat × Str) :=
  [(1000, "thousand".toList), (100, "hundred".toList), (90, "ninety".toList),
   (80, "eighty".toList), (70, "seventy".toList), (60, "sixty".toList),
   (50, "fifty".toList), (40, "forty".toList), (30, "thirty".toList)]

/-- lang_EN low_numwords paired with the values 20 down to 0. -/
def low_cards : List (Nat × Str) :=
  (["twenty".toList, "nineteen".toList, "eighteen".toList, "seventeen".toList,
    "sixteen".toList, "fifteen".toList, "fourteen".toList, "thirteen".toList,
    "twelve".toList, "eleven".toList, "ten".toList, "nine".toList,
    "eight".toList, "seven".toList, "six".toList, "five".toList,
    "four".toList, "three".toList, "two".toList, "one".toList,
    "zero".toList].zip ((List.range 21).reverse))
    |>.map (fun p => (p.2, p.1))

/-- The full card table in the descending order num2words iterates it. -/
def cards : List (Nat × Str) := high_cards ++ mid_cards ++ low_cards

/-- to_cardinal raises OverflowError at abs(value) >= MAXVAL, where
MAXVAL = 1000 times the largest card (10^303), i.e. 10^306. -/
def MAXVAL : Nat := 10 ^ 306

/-- Intermediate shape of splitnum output: a (word, value) pair or a
nested decomposition list. -/
inductive NW where
  | pair : Str × Nat → NW
  | node : List NW → NW

/-- The English merge rules of lang_EN.Num2Word_EN.merge. -/
def mergeEN (l r : Str × Nat) : Str × Nat :=
  if l.2 = 1 ∧ r.2 < 100 then (r.1, r.2)
  else if 100 > l.2 ∧ l.2 > r.2 then (l.1 ++ "-".toList ++ r.1, l.2 + r.2)
  else if l.2 ≥ 100 ∧ 100 > r.2 then (l.1 ++ " and ".toList ++ r.1, l.2 + r.2)
  else if r.2 > l.2 then (l.1 ++ " ".toList ++ r.1, l.2 * r.2)
  else (l.1 ++ ", ".toList ++ r.1, l.2 + r.2)

/-- base.splitnum: pick the largest card not exceeding the value and
decompose value = div * card + mod, recursing on div and mod.  The
fuel argument bounds the recursion depth (the Python recursion always
terminates because div and mod shrink; any fuel at least the value
suffices).  The Python tally branch (div equal to value with div not
1) is unreachable for this card table - for value at least 2 a card of
at least 2 is found first - and is omitted. -/
def splitnumF : Nat → Nat → List NW
  | 0, _ => []
  | fuel + 1, value =>
    match cards.find? (fun c => decide (c.1 ≤ value)) with
    | none => []
    | some (elem, word) =>
      let dm : Nat × Nat :=
        if value = 0 then (1, 0) else (value / elem, value % elem)
      (if dm.1 = 1 then [NW.pair ("one".toList, 1)]
       else [NW.node (splitnumF fuel dm.1)]) ++
      [NW.pair (word, elem)] ++
      (if dm.2 ≠ 0 then [NW.node (splitnumF fuel dm.2)] else [])

/-- base.clean: repeatedly merge the decomposition until one pair is
left.  When the two leading elements are pairs they are merged and the
remainder re-nested as a single element; otherwise one pass unwraps
singleton sublists and cleans longer sublists recursively.  The fuel
bounds the iteration count; the default pair is returned only on fuel
exhaustion or on list shapes splitnum never produces. -/
def cleanF : Nat → List NW → Str × Nat
  | 0, _ => ("".toList, 0)
  | fuel + 1, val =>
    match val with
    | [NW.pair p] => p
    | NW.pair l :: NW.pair r :: rest =>
      cleanF fuel
        (NW.pair (mergeEN l r) :: (if rest.isEmpty then [] else [NW.node rest]))
    | other =>
      cleanF fuel (other.map (fun e =>
        match e with
        | NW.node [x] => x
        | NW.node es => NW.pair (cleanF fuel es)
        | NW.pair p => NW.pair p))

/-- English cardinal words of a natural number below MAXVAL. -/
def num2words_nat (v : Nat) : Str :=
  (cleanF (2 * v + 32) (splitnumF (2 * v + 32) v)).1

/-- num2words(value, to=cardinal, lang=en): "minus " precedes the
words of the absolute value; magnitudes at or above MAXVAL raise
OverflowError, modelled as none. -/
def num2words_cardinal_en (value : Int) : Option Str :=
  if value.natAbs ≥ MAXVAL then none
  else some ((if value < 0 then ("minus ".toList) else []) ++
             num2words_nat value.natAbs)

/-!
The tabular data model.  A spreadsheet cell as pandas hands it to the
program: a string, an integer-valued number, a date (a datetime-typed
cell of the Date column), or a missing value (NaN).
-/

/-- One spreadsheet cell. -/
inductive Cell where
  | s : Str → Cell
  | i : Int → Cell
  | date : Nat → Nat → Nat → Cell
  | nan : Cell
deriving DecidableEq

/-- Decimal digits of a natural number. -/
def natToStr (n : Nat) : Str := Nat.toDigits 10 n

/-- Decimal representation of an integer, with leading minus sign. -/
def intToStr (n : Int) : Str :=
  (if n < 0 then ("-".toList) else []) ++ natToStr n.natAbs

/-- Left-pad a decimal representation with zeros to the given width. -/
def padZeros (w : Nat) (n : Nat) : Str :=
  List.replicate (w - (natToStr n).length) '0' ++ natToStr n

/-- Python str() of a cell: strings unchanged, numbers in decimal,
a datetime cell as its timestamp text, NaN as the text "nan". -/
def pyStr : Cell → Str
  | Cell.s t => t
  | Cell.i n => intToStr n
  | Cell.date d m y =>
    padZeros 4 y ++ "-".toList ++ padZeros 2 m ++ "-".toList ++ padZeros 2 d ++
      " 00:00:00".toList
  | Cell.nan => "nan".toList

/-- Python int() of a decimal string: optional sign then digits, with
surrounding whitespace allowed; anything else raises ValueError. -/
def parseIntStr (t : Str) : Option Int :=
  let u := stripL t
  match u with
  | '-' :: ds =>
    if ds ≠ [] ∧ ds.all Char.isDigit then
      some (-(Int.ofNat (ds.foldl (fun acc c => 10 * acc + (c.toNat - 48)) 0)))
    else none
  | '+' :: ds =>
    if ds ≠ [] ∧ ds.all Char.isDigit then
      some (Int.ofNat (ds.foldl (fun acc c => 10 * acc + (c.toNat - 48)) 0))
    else none
  | ds =>
    if ds ≠ [] ∧ ds.all Char.isDigit then
      some (Int.ofNat (ds.foldl (fun acc c => 10 * acc + (c.toNat - 48)) 0))
    else none

/-- Python int() of a cell (line 42): numbers are taken at their
integer value, decimal strings parse, NaN and date cells raise. -/
def py_int : Cell → Option Int
  | Cell.i n => some n
  | Cell.s t => parseIntStr t
  | Cell.date _ _ _ => none
  | Cell.nan => none

/-- A calendar date as produced by pandas to_datetime. -/
structure DateV where
  day : Nat
  month : Nat
  year : Nat
deriving DecidableEq

/-- pandas to_datetime (line 40), modelled for the cells a ledger
sheet produces: a datetime-typed cell parses to its date; a missing
value gives NaT (whose strftime raises) and free text fails to parse,
both modelled as none. -/
def pd_to_datetime : Cell → Option DateV
  | Cell.date d m y => some ⟨d, m, y⟩
  | _ => none

/-- strftime("%d-%m-%Y"): two-digit day and month, four-digit year. -/
def strftime_dmy (d : DateV) : Str :=
  padZeros 2 d.day ++ "-".toList ++ padZeros 2 d.month ++ "-".toList ++
    padZeros 4 d.year

/-- One ledger row with the nine required fields. -/
structure Row where
  date : Cell
  particulars : Cell
  address : Cell
  voucherType : Cell
  voucherNo : Cell
  pan : Cell
  narration : Cell
  grossTotal : Cell
  donation : Cell
deriving DecidableEq

/-!
Per-row formatting helpers of generate_pdf.
-/

/-- Python str.replace for a single character. -/
def pyReplaceChar (s : Str) (a b : Char) : Str :=
  s.map (fun c => if c = a then b else c)

/-- Voucher-number sanitization (line 35): slash and backslash
become "-". -/
def sanitizeVoucher (v : Str) : Str :=
  pyReplaceChar (pyReplaceChar v '/' '-') '\\' '-'

/-- Donor-name sanitization (line 38): spaces become "_", slash and
backslash become "-". -/
def sanitizeDonor (d : Str) : Str :=
  pyReplaceChar (pyReplaceChar (pyReplaceChar d ' ' '_') '/' '-') '\\' '-'

/-- The serial identifier (line 39): sanitized voucher number,
underscore, sanitized cleaned donor name. -/
def buildSerial (voucherNo donorNameClean : Str) : Str :=
  sanitizeVoucher voucherNo ++ "_".toList ++ sanitizeDonor donorNameClean

/-- Python str.title (line 43), ASCII model: a letter after a
non-letter is uppercased, a letter after a letter is lowercased. -/
def pyTitleAux : Bool → Str → Str
  | _, [] => []
  | prevAlpha, c :: cs =>
    (if c.isAlpha then (if prevAlpha then c.toLower else c.toUpper) else c) ::
      pyTitleAux c.isAlpha cs

/-- Python str.title of a string. -/
def pyTitle (s : Str) : Str := pyTitleAux false s

/-- Lines 42-43: the amount-in-words string of an integer amount -
title-cased English cardinal words followed by " Rupees Only"; none
when the words conversion overflows. -/
def amount_words_of (amount : Int) : Option Str :=
  (num2words_cardinal_en amount).map
    (fun w => pyTitle w ++ " Rupees Only".toList)

/-- Digit grouping of Python format spec ",": a comma every three
digits from the right (input and output are digit lists). -/
def withCommasRev : Str → Nat → Str
  | [], _ => []
  | c :: t, k =>
    (if k ≠ 0 ∧ k % 3 = 0 then [',', c] else [c]) ++ withCommasRev t (k + 1)

/-- Python format(amount, ",.2f") of an integer amount. -/
def fmtComma2 (amount : Int) : Str :=
  (if amount < 0 then ("-".toList) else []) ++
    (withCommasRev (natToStr amount.natAbs).reverse 0).reverse ++ ".00".toList

/-!
The rendered receipt.  The document is modelled by the text content
generate_pdf emits, field by field, in emission order.  The PDF byte
payload is NOT a function of this content alone: PyFPDF 1.7.2 output()
also writes an info dictionary whose /CreationDate field _putinfo
takes from datetime.now() at output time, so the bytes are a fixed
serialization of the content together with that clock reading
(see PdfBytes below).
-/

/-- The text content of one rendered receipt. -/
structure Doc where
  headerName : Str
  headerAddress : Str
  headerReg : Str
  title : Str
  receiptNo : Str
  dateLine : Str
  thankYou : List Str
  details : List (Str × Str)
  taxNotice : Str
  disclaimer : Str
deriving DecidableEq

/-- Organization display name (line 13). -/
def org_name : Str := "Jeev Sewa Foundation".toList

/-- Registered office block (line 16). -/
def org_address : Str :=
  "Reg Office:- 1/4230, Gali No.8, Ram Nagar Extension,\nShahdara North East Delhi-110032".toList

/-- Registration and tax identifiers (line 19). -/
def org_reg : Str :=
  "Reg. No.: 505/2019-20/4-909 | PAN: AADTJ3477H | 80G No: AADTJ3477H24DL02".toList

/-- Tax-exemption notice (line 83). -/
def tax_notice : Str :=
  "Donations towards Jeev Sewa Foundation, registered under Section 80G of India\x27s Income Tax Act, 1961, are tax-deductible.".toList

/-- Disclaimer block (lines 88-92). -/
def disclaimer_block : Str :=
  "*This is a computer-generated receipt and does not require a signature.\n*This e-receipt is invalid in case of non-realization of payment instrument, reversal of credit card charge and/or reversal of amount for any reason.\n*No goods or services were provided to the donor by the organization in return for the contribution.".toList

/-- generate_pdf (src/app_streamlit_ready.py lines 31-95): one row to
one receipt.  Returns the output filename and the document content, or
none when an exception escapes (unparseable date, non-numeric
donation, words-conversion overflow), in the order the code hits
them. -/
def generate_pdf (row : Row) : Option (Str × Doc) :=
  let particulars_raw := stripL (pyStr row.particulars)
  let donor_name_clean :=
    clean_name (stripL (particulars_raw.takeWhile (fun c => c ≠ '(')))
  let t_no := pyStr row.voucherNo
  let ref_no := stripL (pyStr row.narration)
  let serial_no := buildSerial (pyStr row.voucherNo) donor_name_clean
  match pd_to_datetime row.date with
  | none => none
  | some d =>
    let donation_date := strftime_dmy d
    match py_int row.donation with
    | none => none
    | some amount =>
      match amount_words_of amount with
      | none => none
      | some amount_words =>
        some (serial_no ++ ".pdf".toList,
          { headerName := org_name
            headerAddress := org_address
            headerReg := org_reg
            title := "Tax Exempt Receipt".toList
            receiptNo := "Receipt No.  ".toList ++ t_no
            dateLine := "Date: ".toList ++ donation_date
            thankYou :=
              ["Received with thanks from ".toList ++ donor_name_clean ++ ",".toList,
               "We have received your donation of Rs. ".toList ++ fmtComma2 amount ++
                 ". Thank you for your generosity.".toList,
               "The details of the donation are mentioned below:".toList]
            details :=
              [("Donor Name:".toList, donor_name_clean),
               ("PAN No:".toList, pyStr row.pan),
               ("Address:".toList, pyStr row.address),
               ("Transaction ID:".toList, ref_no),
               ("Amount in words:".toList, amount_words)]
            taxNotice := tax_notice
            disclaimer := disclaimer_block })

/-- A representative valid ledger row (the worked scenario of the
specification). -/
def baseRow : Row :=
  { date := Cell.date 15 1 2024
    particulars := Cell.s ("Dr. Asha Verma (Regular Donor)".toList)
    address := Cell.s ("Shahdara, Delhi".toList)
    voucherType := Cell.s ("Receipt".toList)
    voucherNo := Cell.s ("JSF/2024/001".toList)
    pan := Cell.s ("ABCDE1234F".toList)
    narration := Cell.s ("NEFT-12345".toList)
    grossTotal := Cell.i 1500
    donation := Cell.i 1500 }

/-!
The batch pipeline of main (src/app_streamlit_ready.py lines 97-153):
schema validation, the optional address filter, the row-range slice,
and receipt generation into the archive.
-/

/-- The required-column list (lines 106-107). -/
def required_columns : List Str :=
  ["Date".toList, "Particulars".toList, "Consignee/Party Address".toList,
   "Voucher Type".toList, "Voucher No.".toList, "PAN No.".toList,
   "Narration".toList, "Gross Total".toList, "Donation".toList]

/-- The uploaded table: its column names and its parsed records. -/
structure Table where
  cols : List Str
  rows : List Row

/-- The special characters of Python regular expressions; any other
character in a pattern matches itself literally. -/
def reSpecialChars : List Char :=
  ['.', '^', '$', '*', '+', '?', '\x7b', '\x7d', '[', ']', '\\', '|',
   '(', ')']

/-- Python regular-expression matching of a pattern against a prefix
of the text, modelled on the fragment the settled statements exercise:
the metacharacter "." matches any single character and every other
character matches itself.  This agrees with re.search exactly when
every pattern character is either "." or lies outside reSpecialChars;
the theorems below invoke it only on such patterns (the
literal-substring theorem assumes a pattern free of all special
characters, and the counterexample pattern uses only "."). -/
def reMatchHere : Str → Str → Bool
  | [], _ => true
  | _ :: _, [] => false
  | p :: ps, c :: cs => (p == '.' || p == c) && reMatchHere ps cs

/-- re.search on the same pattern fragment: the pattern matches at
some position of the text. -/
def reSearch (pat : Str) : Str → Bool
  | [] => reMatchHere pat []
  | c :: cs => reMatchHere pat (c :: cs) || reSearch pat cs

/-- Whether a cell holds a string (pandas .str operations give NA on
anything else, and boolean indexing with NA raises). -/
def cellIsStr : Cell → Bool
  | Cell.s _ => true
  | _ => false

/-- The row predicate of line 118: the lowered address matches the
search term, which pandas str.contains interprets as a regular
expression. -/
def addrMatches (term : Str) (r : Row) : Bool :=
  match r.address with
  | Cell.s t => reSearch term (lowerL t)
  | _ => false

/-- Lines 116-119: the search term is the stripped, lowered input;
when non-empty, keep the rows whose address matches it and report the
retained count; a non-string address makes the mask operation raise,
modelled as none. -/
def filter_step (rows : List Row) (rawSearch : Str) : Option (List Row × Option Nat) :=
  let term := lowerL (stripL rawSearch)
  if term.isEmpty then some (rows, none)
  else if rows.all (fun r => cellIsStr r.address) then
    some (rows.filter (addrMatches term), some (rows.filter (addrMatches term)).length)
  else none

/-- Lines 137-140: generate a receipt per selected row in table order;
a row failure aborts the batch with no archive. -/
def generateAll : List Row → Option (List (Str × Doc))
  | [] => some []
  | r :: rs =>
    match generate_pdf r, generateAll rs with
    | some e, some es => some (e :: es)
    | _, _ => none

/-- The user-visible result of one batch run: the schema error (which
carries the surfaced required-column list), the pandas masking error,
the empty-table warning, the mid-generation failure, or the archive
offered for download together with the reported match count. -/
inductive Outcome where
  | schemaError (required : List Str)
  | maskError
  | emptyResult
  | renderError
  | archive (entries : List (Str × Doc)) (reported : Option Nat)
deriving DecidableEq

/-- main after a successful file read (lines 104-150): the required
columns are checked against the columns of the table before anything else;
the filter is applied; an empty filtered table aborts; otherwise rows
iloc[start : end + 1] are rendered and archived in order. -/
def run_batch (df : Table) (rawSearch : Str) (start_idx end_idx : Nat) : Outcome :=
  if required_columns.all (fun c => df.cols.contains c) then
    match filter_step df.rows rawSearch with
    | none => Outcome.maskError
    | some (kept, reported) =>
      if kept.isEmpty then Outcome.emptyResult
      else
        match generateAll ((kept.drop start_idx).take (end_idx + 1 - start_idx)) with
        | none => Outcome.renderError
        | some entries => Outcome.archive entries reported
  else Outcome.schemaError required_columns

/-- The name list of a zip archive: one entry per writestr call, in call
order (duplicates included). -/
def zip_namelist (entries : List (Str × Doc)) : List Str :=
  entries.map (fun e => e.1)

/-- Name-based read from a zip archive: the name-to-entry directory is
built by insertion, so the last entry with the name wins. -/
def zip_read (entries : List (Str × Doc)) (name : Str) : Option Doc :=
  (entries.reverse.find? (fun e => e.1 == name)).map (fun e => e.2)

/-- The ambient state the renderer can touch: a clock, a
random-number state, a process-wide document counter.  The source
constructs a fresh FPDF object per call and mutates no module state,
but PyFPDF output() reads the clock (datetime.now()) for the
/CreationDate info field, so the clock component is read while the
state is returned unchanged. -/
structure Env where
  clock : Nat
  rngState : Nat
  docCounter : Nat

/-- The byte payload pdf.output(dest=S).encode(latin1) produces
(line 94): a fixed serialization of the document content together
with the /CreationDate value that PyFPDF _putinfo reads from
datetime.now() at output time.  Two payloads are byte-identical
exactly when both components agree. -/
structure PdfBytes where
  content : Doc
  creationDate : Nat
deriving DecidableEq

/-- render: one generate_pdf call threaded through the ambient state;
the emitted bytes pair the text content with the current clock
reading, and the state is returned unchanged. -/
def render (row : Row) (env : Env) : Option (Str × PdfBytes) × Env :=
  ((generate_pdf row).map
    (fun e => (e.1, { content := e.2, creationDate := env.clock })), env)

/-- Column list with the "Donation" column absent. -/
def colsMissingDonation : List Str :=
  ["Date".toList, "Particulars".toList, "Consignee/Party Address".toList,
   "Voucher Type".toList, "Voucher No.".toList, "PAN No.".toList,
   "Narration".toList, "Gross Total".toList]

/-- Row whose address is the literal text "AXB". -/
def axbRow : Row := { baseRow with address := Cell.s ("AXB".toList) }

/-- The base row with a different voucher type and gross total - the
two fields the renderer never reads. -/
def altUnusedFieldsRow : Row :=
  { baseRow with
    voucherType := Cell.s ("Journal".toList)
    grossTotal := Cell.i 9999 }

/-- Second colliding row: same voucher number and donor name as the
base row, hence the same serial, but a different narration. -/
def collidingRow : Row := { baseRow with narration := Cell.s ("NEFT-99999".toList) }

/-- A document value with every field blank. -/
def blankDoc : Doc :=
  { headerName := [], headerAddress := [], headerReg := [], title := [],
    receiptNo := [], dateLine := [], thankYou := [], details := [],
    taxNotice := [], disclaimer := [] }

/-- Row with missing PAN and address cells. -/
def nanFieldsRow : Row :=
  { baseRow with
    pan := Cell.nan
    address := Cell.nan }

/-- Row whose donation cell is free text. -/
def badDonationRow : Row :=
  { baseRow with donation := Cell.s ("N/A".toList) }

/-!
The claims, settled against the embedding above.
-/

theorem stripPrefixLoop_eq_find (name : Str) (ps : List Str) :
    stripPrefixLoop name ps =
      match ps.find? (fun p => (lowerL p).isPrefixOf (lowerL name)) with
      | some p => stripL (name.drop p.length)
      | none => name := by
  induction ps with
  | nil => rfl
  | cons p ps ih =>
    by_cases h : ((lowerL p).isPrefixOf (lowerL name)) = true
    · simp [stripPrefixLoop, List.find?_cons_of_pos, h]
    · simp only [Bool.not_eq_true] at h
      simp [stripPrefixLoop, List.find?_cons_of_neg, h, ih]

/-- C1: clean_name first trims the input; if the trimmed string begins,
case-insensitively, with one of the eight honorific prefixes, then
exactly the first matching prefix in table order is removed once and
the result re-trimmed; otherwise the trimmed input is returned
unchanged. -/
theorem clean_name_characterization (name : Str) :
    clean_name name =
      match prefixes.find?
          (fun p => (lowerL p).isPrefixOf (lowerL (stripL name))) with
      | some p => stripL ((stripL name).drop p.length)
      | none => stripL name :=
  stripPrefixLoop_eq_find (stripL name) prefixes

example : clean_name ("Dr. Asha Verma".toList) = "Asha Verma".toList := by decide

example : clean_name ("  asha  ".toList) = "asha".toList := by decide

example : clean_name ("MRS. Jones".toList) = "Jones".toList := by decide

example : num2words_cardinal_en 1500 =
    some ("one thousand, five hundred".toList) := by decide

example : num2words_cardinal_en 0 = some ("zero".toList) := by decide

example : num2words_cardinal_en (-5) = some ("minus five".toList) := by decide

example : num2words_cardinal_en 2024 =
    some ("two thousand and twenty-four".toList) := by decide

example : num2words_cardinal_en 100 = some ("one hundred".toList) := by decide

example : amount_words_of 1500 =
    some ("One Thousand, Five Hundred Rupees Only".toList) := by decide

example : fmtComma2 1500 = "1,500.00".toList := by decide

example : fmtComma2 (-1234567) = "-1,234,567.00".toList := by decide

example : (generate_pdf baseRow).map (fun e => e.1) =
    some ("JSF-2024-001_Asha_Verma.pdf".toList) := by decide

/-- C2 (counterexample): on the worked row the produced
amount-in-words string is "One Thousand, Five Hundred Rupees Only" -
the words conversion separates the thousands group with a comma - so
the receipt does not carry the claimed comma-free string. -/
theorem scenario_words_counterexample :
    ((generate_pdf baseRow).map
        (fun e => e.2.details.lookup ("Amount in words:".toList))) =
      some (some ("One Thousand, Five Hundred Rupees Only".toList)) ∧
    ("One Thousand, Five Hundred Rupees Only".toList ≠
      "One Thousand Five Hundred Rupees Only".toList) := by decide

/-- C2 (amended): the row with Particulars "Dr. Asha Verma (Regular
Donor)", Donation 1500 and Voucher No. "JSF/2024/001" yields cleaned
donor name "Asha Verma", serial "JSF-2024-001_Asha_Verma", and the
amount-in-words string "One Thousand, Five Hundred Rupees Only". -/
theorem scenario_row_pipeline :
    clean_name (stripL ((stripL ("Dr. Asha Verma (Regular Donor)".toList)).takeWhile
        (fun c => c ≠ '('))) = "Asha Verma".toList ∧
    buildSerial ("JSF/2024/001".toList) ("Asha Verma".toList) =
      "JSF-2024-001_Asha_Verma".toList ∧
    ((generate_pdf baseRow).map
        (fun e => (e.1, e.2.details.lookup ("Donor Name:".toList),
                   e.2.details.lookup ("Amount in words:".toList)))) =
      some ("JSF-2024-001_Asha_Verma.pdf".toList, some ("Asha Verma".toList),
            some ("One Thousand, Five Hundred Rupees Only".toList)) := by decide

theorem mem_replaceChar {c a b : Char} {s : Str}
    (h : c ∈ pyReplaceChar s a b) : c = b ∨ (c ∈ s ∧ c ≠ a) := by
  simp only [pyReplaceChar, List.mem_map] at h
  obtain ⟨x, hx, hfx⟩ := h
  by_cases hxa : x = a
  · subst hxa; rw [if_pos rfl] at hfx; exact Or.inl hfx.symm
  · rw [if_neg hxa] at hfx; subst hfx; exact Or.inr ⟨hx, hxa⟩

theorem not_mem_replace_self {s : Str} {a b : Char} (h : a ≠ b) :
    a ∉ pyReplaceChar s a b := by
  intro hm
  rcases mem_replaceChar hm with h1 | ⟨_, h2⟩
  · exact h h1
  · exact h2 rfl

theorem not_mem_replace_of {s : Str} {a b c : Char} (hc : c ∉ s) (hb : c ≠ b) :
    c ∉ pyReplaceChar s a b := by
  intro hm
  rcases mem_replaceChar hm with h1 | ⟨h2, _⟩
  · exact hb h1
  · exact hc h2

/-- C3: for every voucher number and donor name, the serial contains
neither a slash nor a backslash. -/
theorem buildSerial_path_safe (v d : Str) :
    '/' ∉ buildSerial v d ∧ '\\' ∉ buildSerial v d := by
  have hv1 : '/' ∉ sanitizeVoucher v :=
    not_mem_replace_of (not_mem_replace_self (by decide)) (by decide)
  have hv2 : '\\' ∉ sanitizeVoucher v := not_mem_replace_self (by decide)
  have hd1 : '/' ∉ sanitizeDonor d :=
    not_mem_replace_of (not_mem_replace_self (by decide)) (by decide)
  have hd2 : '\\' ∉ sanitizeDonor d := not_mem_replace_self (by decide)
  constructor <;> intro hmem <;>
    rcases List.mem_append.mp hmem with hL | hR
  · rcases List.mem_append.mp hL with h | h
    · exact hv1 h
    · simp at h
  · exact hd1 hR
  · rcases List.mem_append.mp hL with h | h
    · exact hv2 h
    · simp at h
  · exact hd2 hR

/-- C4: when a required column is absent from the table, the batch run
returns the schema error carrying the required-column list, and the
result does not depend on the rows of the table - no row is read, no
archive is produced. -/
theorem schema_error_aborts (cols : List Str) (rows rows' : List Row)
    (s : Str) (a b : Nat)
    (h : required_columns.all (fun c => cols.contains c) = false) :
    run_batch ⟨cols, rows⟩ s a b = Outcome.schemaError required_columns ∧
    run_batch ⟨cols, rows⟩ s a b = run_batch ⟨cols, rows'⟩ s a b := by
  constructor
  all_goals simp only [run_batch]
  all_goals simp only [h, Bool.false_eq_true, if_false]

/-- C4 witness: the spreadsheet missing its "Donation" column aborts
with the schema error whatever rows it carries. -/
theorem schema_error_aborts_witness :
    required_columns.all (fun c => colsMissingDonation.contains c) = false ∧
    run_batch ⟨colsMissingDonation, []⟩ [] 0 0 =
      Outcome.schemaError required_columns ∧
    run_batch ⟨colsMissingDonation, []⟩ [] 0 0 =
      run_batch ⟨colsMissingDonation, [baseRow]⟩ [] 0 0 :=
  ⟨by decide,
   (schema_error_aborts colsMissingDonation [] [baseRow] [] 0 0 (by decide)).1,
   (schema_error_aborts colsMissingDonation [] [baseRow] [] 0 0 (by decide)).2⟩

theorem reMatchHere_no_dot {pat : Str} (h : '.' ∉ pat) (text : Str) :
    reMatchHere pat text = List.isPrefixOf pat text := by
  induction pat generalizing text with
  | nil => cases text <;> rfl
  | cons p ps ih =>
    have hp : p ≠ '.' := fun he => h (he ▸ List.mem_cons_self p ps)
    have hps : '.' ∉ ps := fun hm => h (List.mem_cons_of_mem p hm)
    cases text with
    | nil => rfl
    | cons c cs =>
      simp only [reMatchHere, List.isPrefixOf, ih hps,
        beq_eq_false_iff_ne.mpr hp, Bool.false_or]

theorem reSearch_no_dot {pat : Str} (h : '.' ∉ pat) (text : Str) :
    reSearch pat text = containsL text pat := by
  induction text with
  | nil =>
    show reMatchHere pat [] = pat.isEmpty
    rw [reMatchHere_no_dot h]
    cases pat <;> rfl
  | cons c cs ih =>
    simp only [reSearch, containsL, reMatchHere_no_dot h, ih]

/-- C5 (counterexample): with filter text "a.b" the filter retains the
row addressed "AXB" - pandas str.contains reads the filter as a
regular expression, in which "." matches any character - although
"a.b" is not a literal substring of the lowered address "axb". -/
theorem filter_regex_counterexample :
    filter_step [axbRow] ("a.b".toList) = some ([axbRow], some 1) ∧
    containsL (lowerL ("AXB".toList)) (lowerL (stripL ("a.b".toList))) = false := by
  decide

/-- C5 (amended): for a filter text that is non-empty after trimming
and free of regular-expression special characters (none of
reSpecialChars occurs in it - on such patterns re.search is literal
substring search and the fragment model is faithful), over rows whose
address cells are strings, the filter retains exactly the rows whose
lowered address contains the lowered trimmed filter text as a literal
substring, and reports the retained count. -/
theorem filter_literal_substring (rows : List Row) (raw : Str)
    (h1 : (lowerL (stripL raw)).isEmpty = false)
    (h2 : ∀ c ∈ lowerL (stripL raw), c ∉ reSpecialChars)
    (h3 : ∀ r ∈ rows, ∃ t, r.address = Cell.s t) :
    ∃ kept, filter_step rows raw = some (kept, some kept.length) ∧
      ∀ r, r ∈ kept ↔ (r ∈ rows ∧ ∃ t, r.address = Cell.s t ∧
        containsL (lowerL t) (lowerL (stripL raw)) = true) := by
  have hdot : '.' ∉ lowerL (stripL raw) := fun hd => (h2 '.' hd) (by decide)
  have hall : rows.all (fun r => cellIsStr r.address) = true := by
    rw [List.all_eq_true]
    intro r hr
    obtain ⟨t, ht⟩ := h3 r hr
    rw [ht]; rfl
  refine ⟨rows.filter (addrMatches (lowerL (stripL raw))), ?_, ?_⟩
  · simp only [filter_step, h1, Bool.false_eq_true, if_false, hall, if_true]
  · intro r
    constructor
    · intro hr
      obtain ⟨hrin, hmatch⟩ := List.mem_filter.mp hr
      obtain ⟨t, ht⟩ := h3 r hrin
      refine ⟨hrin, t, ht, ?_⟩
      simp only [addrMatches, ht] at hmatch
      rw [← reSearch_no_dot hdot]
      exact hmatch
    · rintro ⟨hrin, t, ht, hcont⟩
      apply List.mem_filter.mpr
      refine ⟨hrin, ?_⟩
      simp only [addrMatches, ht]
      rw [reSearch_no_dot hdot]
      exact hcont

/-- C5 witness: filtering a one-row table by "Delhi " (note the
trailing blank) keeps the row whose address contains "delhi"
case-insensitively, and reports one match. -/
theorem filter_literal_substring_witness :
    (lowerL (stripL ("Delhi ".toList))).isEmpty = false ∧
    (∀ c ∈ lowerL (stripL ("Delhi ".toList)), c ∉ reSpecialChars) ∧
    (∀ r ∈ [baseRow], ∃ t, r.address = Cell.s t) ∧
    (∃ kept, filter_step [baseRow] ("Delhi ".toList) =
        some (kept, some kept.length) ∧
      ∀ r, r ∈ kept ↔ (r ∈ [baseRow] ∧ ∃ t, r.address = Cell.s t ∧
        containsL (lowerL t) (lowerL (stripL ("Delhi ".toList))) = true)) := by
  have h3 : ∀ r ∈ [baseRow], ∃ t, r.address = Cell.s t := by
    intro r hr
    rw [List.mem_singleton] at hr
    subst hr
    exact ⟨"Shahdara, Delhi".toList, rfl⟩
  exact ⟨by decide, by decide, h3,
    filter_literal_substring [baseRow] ("Delhi ".toList) (by decide) (by decide) h3⟩

/-- C6 (counterexample): a two-row table with an inverted range
(start 1, end 0) does not abort with the empty-result outcome - the
slice is simply empty and an archive with zero documents is still
produced and offered for download. -/
theorem invalid_range_counterexample :
    run_batch ⟨required_columns, [baseRow, baseRow]⟩ [] 1 0 =
      Outcome.archive [] none ∧
    run_batch ⟨required_columns, [baseRow, baseRow]⟩ [] 1 0 ≠
      Outcome.emptyResult := by decide

/-- C6 (amended): with the schema satisfied, a filter result of zero
rows aborts the batch with the empty-result outcome, zero documents
and no archive; but an inverted row range is not defended against -
the slice comes out empty and an archive with zero documents is still
produced and offered. -/
theorem empty_rows_vs_invalid_range (df : Table) (s : Str) (a b : Nat)
    (hschema : required_columns.all (fun c => df.cols.contains c) = true) :
    (∀ rep, filter_step df.rows s = some ([], rep) →
      run_batch df s a b = Outcome.emptyResult) ∧
    (∀ kept rep, filter_step df.rows s = some (kept, rep) → kept ≠ [] →
      b < a → run_batch df s a b = Outcome.archive [] rep) := by
  constructor
  · intro rep hf
    simp only [run_batch, hschema, if_true, hf]
    rfl
  · intro kept rep hf hne hba
    have hz : b + 1 - a = 0 := by omega
    have hslice : (kept.drop a).take (b + 1 - a) = [] := by
      rw [hz, List.take_zero]
    have hkept : kept.isEmpty = false := by
      cases kept with
      | nil => exact absurd rfl hne
      | cons x xs => rfl
    simp only [run_batch, hschema, if_true, hf, hkept, Bool.false_eq_true,
      if_false, hslice]
    rfl

/-- C6 witness: the empty table aborts with the empty-result outcome;
the one-row table sliced with start 1, end 0 yields the empty
archive. -/
theorem empty_rows_vs_invalid_range_witness :
    required_columns.all (fun c => required_columns.contains c) = true ∧
    filter_step ([] : List Row) [] = some ([], none) ∧
    ([] : List Row) = [] ∧
    run_batch ⟨required_columns, []⟩ [] 0 0 = Outcome.emptyResult ∧
    filter_step [baseRow] [] = some ([baseRow], none) ∧
    [baseRow] ≠ [] ∧ (0 : Nat) < 1 ∧
    run_batch ⟨required_columns, [baseRow]⟩ [] 1 0 = Outcome.archive [] none :=
  ⟨by decide, by decide, rfl,
   (empty_rows_vs_invalid_range ⟨required_columns, []⟩ [] 0 0 (by decide)).1
     none (by decide),
   by decide, by decide, by decide,
   (empty_rows_vs_invalid_range ⟨required_columns, [baseRow]⟩ [] 1 0
     (by decide)).2 [baseRow] none (by decide) (by decide) (by decide)⟩

/-- C7 (counterexample): rendering the worked row under two clock
readings yields different byte payloads - PyFPDF embeds the
/CreationDate it reads from the clock - although the text content of
the two documents is identical.  Rendering is therefore not a pure
function of the row and repeated calls are not byte-identical. -/
theorem render_timestamp_counterexample :
    (render baseRow ⟨0, 0, 0⟩).1 ≠ (render baseRow ⟨1, 0, 0⟩).1 ∧
    ((render baseRow ⟨0, 0, 0⟩).1.map (fun e => (e.1, e.2.content))) =
      ((render baseRow ⟨1, 0, 0⟩).1.map (fun e => (e.1, e.2.content))) := by
  decide

/-- C7 (amended): the text content of the rendered document is a pure,
deterministic function of the row fields the renderer reads (date,
particulars, address, voucher number, PAN, narration, donation) - it
does not vary with the ambient clock, randomness or counter state, nor
with the unused row fields; the byte payload additionally embeds the
creation timestamp read from the clock at output time, so two render
calls are byte-identical exactly when their clock readings agree. -/
theorem render_content_deterministic (r1 r2 : Row) (e1 e2 : Env)
    (h : r1.date = r2.date ∧ r1.particulars = r2.particulars ∧
         r1.address = r2.address ∧ r1.voucherNo = r2.voucherNo ∧
         r1.pan = r2.pan ∧ r1.narration = r2.narration ∧
         r1.donation = r2.donation) :
    ((render r1 e1).1.map (fun e => (e.1, e.2.content)) =
      (render r2 e2).1.map (fun e => (e.1, e.2.content))) ∧
    (e1.clock = e2.clock → (render r1 e1).1 = (render r2 e2).1) := by
  obtain ⟨h1, h2, h3, h4, h5, h6, h7⟩ := h
  obtain ⟨d1, p1, ad1, vt1, vn1, pa1, na1, gt1, dn1⟩ := r1
  obtain ⟨d2, p2, ad2, vt2, vn2, pa2, na2, gt2, dn2⟩ := r2
  dsimp only at h1 h2 h3 h4 h5 h6 h7
  subst h1 h2 h3 h4 h5 h6 h7
  have hg : generate_pdf ⟨d1, p1, ad1, vt1, vn1, pa1, na1, gt1, dn1⟩ =
      generate_pdf ⟨d1, p1, ad1, vt2, vn1, pa1, na1, gt2, dn1⟩ := rfl
  constructor
  · cases hx : generate_pdf (⟨d1, p1, ad1, vt1, vn1, pa1, na1, gt1, dn1⟩ : Row) with
    | none =>
      have hx2 := hg.symm.trans hx
      simp [render, hx, hx2]
    | some e =>
      have hx2 := hg.symm.trans hx
      simp [render, hx, hx2]
  · intro hc
    simp only [render, hg, hc]

/-- C7 witness: two rows agreeing on the rendered fields but differing
in voucher type and gross total render the same content under any two
ambient states, and the same bytes once the clocks agree. -/
theorem render_content_deterministic_witness :
    (baseRow.date = altUnusedFieldsRow.date ∧
     baseRow.particulars = altUnusedFieldsRow.particulars ∧
     baseRow.address = altUnusedFieldsRow.address ∧
     baseRow.voucherNo = altUnusedFieldsRow.voucherNo ∧
     baseRow.pan = altUnusedFieldsRow.pan ∧
     baseRow.narration = altUnusedFieldsRow.narration ∧
     baseRow.donation = altUnusedFieldsRow.donation) ∧
    ((render baseRow ⟨5, 0, 0⟩).1.map (fun e => (e.1, e.2.content)) =
      (render altUnusedFieldsRow ⟨5, 456, 789⟩).1.map
        (fun e => (e.1, e.2.content))) ∧
    ((⟨5, 0, 0⟩ : Env).clock = (⟨5, 456, 789⟩ : Env).clock →
      (render baseRow ⟨5, 0, 0⟩).1 = (render altUnusedFieldsRow ⟨5, 456, 789⟩).1) :=
  ⟨⟨rfl, rfl, rfl, rfl, rfl, rfl, rfl⟩,
   (render_content_deterministic baseRow altUnusedFieldsRow ⟨5, 0, 0⟩
     ⟨5, 456, 789⟩ ⟨rfl, rfl, rfl, rfl, rfl, rfl, rfl⟩).1,
   (render_content_deterministic baseRow altUnusedFieldsRow ⟨5, 0, 0⟩
     ⟨5, 456, 789⟩ ⟨rfl, rfl, rfl, rfl, rfl, rfl, rfl⟩).2⟩

theorem generateAll_length (rows : List Row) (entries : List (Str × Doc))
    (h : generateAll rows = some entries) : entries.length = rows.length := by
  induction rows generalizing entries with
  | nil =>
    simp only [generateAll, Option.some.injEq] at h
    subst h
    rfl
  | cons r rs ih =>
    simp only [generateAll] at h
    cases hg : generate_pdf r <;> rw [hg] at h
    · exact absurd h (by simp)
    · cases hga : generateAll rs <;> rw [hga] at h
      · exact absurd h (by simp)
      · simp only [Option.some.injEq] at h
        subst h
        simp [ih _ hga]

/-- C8 (counterexample): two rows sharing a serial produce two archive
entries under one name - the later entry is appended rather than
replacing the earlier one - so filenames are not unique within the
archive and one name carries two distinct payloads. -/
theorem archive_duplicate_counterexample :
    (generateAll [baseRow, collidingRow]).map
        (fun es => (zip_namelist es,
          es.map (fun e => e.2.details.lookup ("Transaction ID:".toList)))) =
      some (["JSF-2024-001_Asha_Verma.pdf".toList,
             "JSF-2024-001_Asha_Verma.pdf".toList],
            [some ("NEFT-12345".toList), some ("NEFT-99999".toList)]) := by
  decide

/-- C8 (amended): receipt generation appends one archive entry per
processed row in table order, colliding filenames included - an
archive built from N rows holds N entries even when names repeat -
and name-based reading resolves to the entry written last, so a
colliding name extracts the document of the later row. -/
theorem archive_append_last_wins (rows : List Row) (entries : List (Str × Doc))
    (n : Str) (d : Doc) (h : generateAll rows = some entries) :
    entries.length = rows.length ∧
    zip_read (entries ++ [(n, d)]) n = some d := by
  refine ⟨generateAll_length rows entries h, ?_⟩
  simp [zip_read, List.reverse_append]

/-- C8 witness: on the empty batch the entry count matches the row
count, and an appended entry is what its name reads back. -/
theorem archive_append_last_wins_witness :
    generateAll [] = some [] ∧
    ([] : List (Str × Doc)).length = ([] : List Row).length ∧
    zip_read (([] : List (Str × Doc)) ++ [("a.pdf".toList, blankDoc)])
      ("a.pdf".toList) = some blankDoc :=
  ⟨rfl, (archive_append_last_wins [] [] ("a.pdf".toList) blankDoc rfl).1,
   (archive_append_last_wins [] [] ("a.pdf".toList) blankDoc rfl).2⟩

theorem num2words_some_of_lt {a : Int} (h : a.natAbs < MAXVAL) :
    num2words_cardinal_en a =
      some ((if a < 0 then ("minus ".toList) else []) ++
        num2words_nat a.natAbs) := by
  simp only [num2words_cardinal_en]
  rw [if_neg (by omega)]

theorem generateAll_abort (bad : Row) (h : generate_pdf bad = none) :
    ∀ pre post, generateAll (pre ++ bad :: post) = none := by
  intro pre post
  induction pre with
  | nil => simp [generateAll, h]
  | cons x xs ih =>
    have step : generateAll ((x :: xs) ++ bad :: post) =
        match generate_pdf x, generateAll (xs ++ bad :: post) with
        | some e, some es => some (e :: es)
        | _, _ => none := rfl
    rw [step, ih]
    cases generate_pdf x <;> rfl

/-- C9 (counterexample): a row whose PAN cell is missing renders
without error, but the labeled field carries the literal text "nan" -
not the empty string the claim expects. -/
theorem missing_pan_renders_nan_counterexample :
    ((generate_pdf nanFieldsRow).map
        (fun e => e.2.details.lookup ("PAN No:".toList))) =
      some (some ("nan".toList)) ∧
    "nan".toList ≠ ([] : Str) := by decide

/-- C9 (amended): a row whose PAN or address cell is missing renders
without error, the missing value appearing as the literal text "nan"
in its labeled field; a row whose date does not parse or whose
donation is non-numeric makes generate_pdf fail, and one such row
anywhere in the batch aborts the whole run with no archive output. -/
theorem missing_fields_render_bad_fields_abort (row bad : Row)
    (dt : DateV) (a : Int)
    (hdate : pd_to_datetime row.date = some dt)
    (hdon : py_int row.donation = some a)
    (hbound : a.natAbs < MAXVAL)
    (hbad : pd_to_datetime bad.date = none ∨ py_int bad.donation = none) :
    (∃ fn doc, generate_pdf row = some (fn, doc) ∧
      (row.pan = Cell.nan → ("PAN No:".toList, "nan".toList) ∈ doc.details) ∧
      (row.address = Cell.nan → ("Address:".toList, "nan".toList) ∈ doc.details)) ∧
    generate_pdf bad = none ∧
    (∀ pre post, generateAll (pre ++ bad :: post) = none) := by
  have hw := num2words_some_of_lt hbound
  have hbadnone : generate_pdf bad = none := by
    rcases hbad with hb | hb
    · simp [generate_pdf, hb]
    · cases hd : pd_to_datetime bad.date with
      | none => simp [generate_pdf, hd]
      | some d => simp [generate_pdf, hd, hb]
  refine ⟨?_, hbadnone, generateAll_abort bad hbadnone⟩
  have hwo : amount_words_of a =
      some (pyTitle ((if a < 0 then ("minus ".toList) else []) ++
        num2words_nat a.natAbs) ++ " Rupees Only".toList) := by
    simp only [amount_words_of, hw]
    rfl
  simp only [generate_pdf, hdate, hdon, hwo]
  refine ⟨_, _, rfl, ?_, ?_⟩
  · intro hp
    simp [hp, pyStr]
  · intro hp
    simp [hp, pyStr]

/-- C9 witness: the row with missing PAN and address renders with
"nan" in both fields, while the row with donation "N/A" fails and
aborts any batch containing it. -/
theorem missing_fields_witness :
    pd_to_datetime nanFieldsRow.date = some ⟨15, 1, 2024⟩ ∧
    py_int nanFieldsRow.donation = some 1500 ∧
    (1500 : Int).natAbs < MAXVAL ∧
    py_int badDonationRow.donation = none ∧
    ((∃ fn doc, generate_pdf nanFieldsRow = some (fn, doc) ∧
        (nanFieldsRow.pan = Cell.nan →
          ("PAN No:".toList, "nan".toList) ∈ doc.details) ∧
        (nanFieldsRow.address = Cell.nan →
          ("Address:".toList, "nan".toList) ∈ doc.details)) ∧
      generate_pdf badDonationRow = none ∧
      (∀ pre post, generateAll (pre ++ badDonationRow :: post) = none)) :=
  ⟨by decide, by decide, by decide, by decide,
   missing_fields_render_bad_fields_abort nanFieldsRow badDonationRow
     ⟨15, 1, 2024⟩ 1500 (by decide) (by decide) (by decide)
     (Or.inr (by decide))⟩

theorem pyTitle_minus (body : Str) :
    pyTitle ("minus ".toList ++ body) =
      "Minus ".toList ++ pyTitleAux false body := rfl

/-- C10 (counterexample): at donation -(10 ^ 306) the words conversion
overflows, so rendering fails rather than succeeding: not every
negative whole-number donation renders. -/
theorem negative_amount_overflow_counterexample :
    amount_words_of (-(10 ^ 306)) = none ∧
    generate_pdf { baseRow with donation := Cell.i (-(10 ^ 306)) } = none := by
  decide

/-- C10 (amended): every negative whole-number donation below the
words-conversion overflow bound renders with no validation error - no
positivity check exists anywhere - and its amount-in-words string
begins with "Minus" and still ends with " Rupees Only". -/
theorem negative_amount_renders (a : Int) (h1 : a < 0)
    (h2 : a.natAbs < MAXVAL) :
    ∃ w, amount_words_of a = some w ∧
      ("Minus".toList).isPrefixOf w = true ∧
      (∃ t, w = t ++ " Rupees Only".toList) ∧
      (generate_pdf { baseRow with donation := Cell.i a }).isSome = true := by
  have hw := num2words_some_of_lt h2
  rw [if_pos h1] at hw
  have hwo : amount_words_of a =
      some (pyTitle ("minus ".toList ++ num2words_nat a.natAbs) ++
        " Rupees Only".toList) := by
    simp only [amount_words_of, hw]
    rfl
  refine ⟨pyTitle ("minus ".toList ++ num2words_nat a.natAbs) ++
    " Rupees Only".toList, hwo, ?_, ⟨_, rfl⟩, ?_⟩
  · rw [pyTitle_minus]
    rfl
  · simp only [generate_pdf, baseRow, pd_to_datetime, py_int, hwo]
    rfl

/-- C10 witness: donation -5 renders "Minus Five Rupees Only". -/
theorem negative_amount_renders_witness :
    ((-5 : Int) < 0) ∧ ((-5 : Int)).natAbs < MAXVAL ∧
    (∃ w, amount_words_of (-5) = some w ∧
      ("Minus".toList).isPrefixOf w = true ∧
      (∃ t, w = t ++ " Rupees Only".toList) ∧
      (generate_pdf { baseRow with donation := Cell.i (-5) }).isSome = true) :=
  ⟨by decide, by decide, negative_amount_renders (-5) (by decide) (by decide)⟩
